import Mathlib

/-!
Shallow embedding of the hardware-abstraction core of the rustic kernel:
`src/rustic/mach/pc/mod.rs` (Machine, TimerHandlers, Keyboard, IoPort and
Mmio implementations for `MachineState`) and `src/rustic/arch/mod.rs`
(the Architecture, Threads and TrapHandler capability contracts and
`ArchitectureState`).

The device modules `pic.rs`, `pit.rs`, `kb.rs`, `serial.rs` and `vga.rs`
are referenced by the code above but are not part of the sources being
verified; their observable surfaces (registration table, enable state,
IRQ numbers, bring-up constructors) are modelled from the specification,
and each such definition is marked `Modelled from the spec`.
Machine integers (`uint`, `u8`, `u16`) are embedded as `Nat`, reduced
modulo their width where the width matters.  Rust function pointers
(`extern fn(uint)`) are embedded as opaque numeric identifiers, and an
invocation of a handler is recorded as a trace event rather than an
actual call, so that invocation order and arguments are observable.
-/

namespace Rustic

/-- Parity modes of the serial configuration surface (`mach::parity`);
the spec lists `{none, even, odd}`. -/
inductive Parity where
  | NoParity
  | EvenParity
  | OddParity
deriving DecidableEq

/-- Serial configuration surface consumed at Machine init:
baud rate, data bits, parity mode, stop bits. -/
structure SerialConfig where
  baud : Nat
  dataBits : Nat
  par : Parity
  stopBits : Nat
deriving DecidableEq

/-- Fault-injection record for the device bring-up steps.  Modelled from
the spec: testable property §8 speaks of a bring-up step being "made to
fail"; the device sources (`serial.rs`, `pic.rs`, `pit.rs`, `kb.rs`,
`vga.rs`) are outside the verified sources and expose no failure channel
to the caller, so the injected outcome of each step is carried
separately and recorded on the device state it produces. -/
structure StepOutcomes where
  serial_ok : Bool
  pic_ok : Bool
  pit_ok : Bool
  kb_ok : Bool
  display_ok : Bool
deriving DecidableEq

/-- True when every injected bring-up step outcome is a success. -/
def StepOutcomes.allOk (o : StepOutcomes) : Bool :=
  o.serial_ok && o.pic_ok && o.pit_ok && o.kb_ok && o.display_ok

/-- Every bring-up step succeeds. -/
def StepOutcomes.allGood : StepOutcomes :=
  ⟨true, true, true, true, true⟩

/-- Every bring-up step fails. -/
def StepOutcomes.allFail : StepOutcomes :=
  ⟨false, false, false, false, false⟩

/-- PIT (programmable interval timer) device state.  Modelled from the
spec: `pit.rs` is outside the verified sources; the spec records only
that the timer is brought up at a fixed tick frequency.  The `ok` field
records the injected bring-up outcome. -/
structure Pit where
  ok : Bool
  freq : Nat
deriving DecidableEq

/-- `pit::Pit::new()`: placeholder device before bring-up. -/
def Pit.new : Pit := ⟨true, 0⟩

/-- `pit::Pit::init(freq)`: bring up the timer at the given frequency.
Modelled from the spec; the extra `ok` argument is the injected step
outcome. -/
def Pit.init (ok : Bool) (freq : Nat) : Pit := ⟨ok, freq⟩

/-- `pit::Pit::irq_num()`: the timer's own IRQ line.  Modelled from the
spec: the concrete value lives in `pit.rs`; on legacy PC wiring the
timer is line 0. -/
def Pit.irq_num : Nat := 0

/-- PS/2 keyboard controller state.  Modelled from the spec: `kb.rs` is
outside the verified sources; `leds` stores an 8-bit LED state. -/
structure PS2Keyboard where
  ok : Bool
  ledState : Nat
deriving DecidableEq

/-- `kb::PS2Keyboard::new()`: placeholder device before bring-up. -/
def PS2Keyboard.new : PS2Keyboard := ⟨true, 0⟩

/-- `kb::PS2Keyboard::init()`: bring up the keyboard controller.
Modelled from the spec; `ok` is the injected step outcome. -/
def PS2Keyboard.init (ok : Bool) : PS2Keyboard := ⟨ok, 0⟩

/-- `kb::PS2Keyboard::irq_num()`: the keyboard's own IRQ line.
Modelled from the spec: the concrete value lives in `kb.rs`; on legacy
PC wiring the keyboard is line 1. -/
def PS2Keyboard.irq_num : Nat := 1

/-- `keyboard.leds(state)`: store the 8-bit LED state.  Modelled from
the spec (`kb_leds(state: u8)` is consumed as an opaque capability). -/
def PS2Keyboard.leds (k : PS2Keyboard) (state : Nat) : PS2Keyboard :=
  { k with ledState := state % 256 }

/-- VGA display device state.  Modelled from the spec: `vga.rs` is
outside the verified sources. -/
structure Vga where
  ok : Bool
  booted : Bool
deriving DecidableEq

/-- `vga::Vga::new()`: placeholder device before bring-up. -/
def Vga.new : Vga := ⟨true, false⟩

/-- `screen.init()`: bring up the display.  Modelled from the spec;
`ok` is the injected step outcome. -/
def Vga.init (v : Vga) (ok : Bool) : Vga :=
  { v with ok := ok, booted := true }

/-- A boxed `IrqHandler` trait object.  In `Machine::initialise` the
only handler objects ever built are `box self.state.timer` and
`box self.state.keyboard`, so the embedding enumerates exactly those
two shapes, each carrying the device value placed in the box. -/
inductive IrqHandlerObj where
  | pitHandler (dev : Pit)
  | kbHandler (dev : PS2Keyboard)
deriving DecidableEq

/-- `Rc<RefCell<Box<IrqHandler>>>`: a shared, reference-counted,
interior-mutable reference to a boxed IRQ handler.  The embedding keeps
the wrapper explicit so that registrations are visibly of this shared
shape. -/
structure SharedIrqHandler where
  cell : IrqHandlerObj
deriving DecidableEq

/-- PIC (interrupt controller) state: the interrupt dispatch table.
Modelled from the spec: `pic.rs` is outside the verified sources; §3
and §4.3 give it a per-line handler slot with a trigger-mode flag
(at most one handler per line, overwrite on re-registration) and a
per-line enable state, with all lines masked initially. -/
structure Pic where
  ok : Bool
  handlers : Nat → Option (SharedIrqHandler × Bool)
  enabled : Nat → Bool

/-- `pic::Pic::new()`: placeholder controller before bring-up. -/
def Pic.new : Pic := ⟨true, fun _ => none, fun _ => false⟩

/-- `pic::Pic::init()`: bring up the controller; all lines masked, no
handlers.  Modelled from the spec; `ok` is the injected step outcome. -/
def Pic.init (ok : Bool) : Pic := ⟨ok, fun _ => none, fun _ => false⟩

/-- `irq_ctlr.register(irq, f, level_trigger)`: install or overwrite
the handler for the line; does not itself enable the line.  Modelled
from the spec §4.3. -/
def Pic.register (p : Pic) (irq : Nat) (f : SharedIrqHandler) (level_trigger : Bool) : Pic :=
  { p with handlers := fun l => if l = irq then some (f, level_trigger) else p.handlers l }

/-- `irq_ctlr.enable(irq)`: let the controller deliver interrupts for
the line.  Modelled from the spec §4.3. -/
def Pic.enable (p : Pic) (irq : Nat) : Pic :=
  { p with enabled := fun l => if l = irq then true else p.enabled l }

/-- Hardware dispatch of a physical interrupt for a line: when the line
is enabled, look up the registered handler and invoke it with the
originating line number; with no handler (or a masked line) the event
is dropped.  Modelled from the spec §4.3; the result records which
handler is invoked and with which argument. -/
def Pic.dispatch (p : Pic) (irq : Nat) : Option (SharedIrqHandler × Nat) :=
  if p.enabled irq then
    match p.handlers irq with
    | some (f, _) => some (f, irq)
    | none => none
  else none

/-- `pc::State`: the PC board state owned by the machine
(`irq_ctlr`, `timer`, `keyboard`, `screen`, `timer_handlers`).
Timer handlers (`extern fn(uint)`) are opaque identifiers. -/
structure State where
  irq_ctlr : Pic
  timer : Pit
  keyboard : PS2Keyboard
  screen : Vga
  timer_handlers : List Nat

/-- `pc::State::new()`: fresh devices and an empty handler vector. -/
def State.new : State :=
  ⟨Pic.new, Pit.new, PS2Keyboard.new, Vga.new, []⟩

/-- `MachineState`: the machine-level state the `Machine`,
`TimerHandlers`, `Keyboard`, `IoPort` and `Mmio` implementations
operate on.  Its definition lives in `mach/mod.rs`, outside the
verified sources; from its uses it has the `initialised` flag, the
serial surface and the board `state`.  The `serial` and `serial_ok`
fields are modelled from the spec (§4.4 step 1, §6): they record the
configuration passed to `serial_config` and the injected outcome of the
serial step. -/
structure MachineState where
  initialised : Bool
  serial_ok : Bool
  serial : Option SerialConfig
  state : State

/-- A fresh machine state before any bring-up. -/
def MachineState.new : MachineState :=
  ⟨false, true, none, State.new⟩

/-- `self.serial_config(baud, data_bits, parity, stop_bits)`: configure
the serial port.  Modelled from the spec: the `Serial` implementation
is outside the verified sources; the configuration is recorded, and
`ok` is the injected step outcome. -/
def MachineState.serial_config (s : MachineState) (ok : Bool) (baud dataBits : Nat)
    (par : Parity) (stopBits : Nat) : MachineState :=
  { s with serial := some ⟨baud, dataBits, par, stopBits⟩, serial_ok := ok }

/-- One observable step of `Machine::initialise`, in program order. -/
inductive Event where
  | serialConfig (baud dataBits : Nat) (par : Parity) (stopBits : Nat)
  | picInit
  | pitInit (freq : Nat)
  | kbInit
  | registerIrq (irq : Nat) (f : SharedIrqHandler) (level_trigger : Bool)
  | vgaInit
  | markInitialised
deriving DecidableEq

/-- `Machine::register_irq` (mod.rs lines 76-79): register the handler
with the controller, then enable the line. -/
def Machine.register_irq (s : MachineState) (irq : Nat) (f : SharedIrqHandler)
    (level_trigger : Bool) : MachineState :=
  let s1 := { s with state.irq_ctlr := s.state.irq_ctlr.register irq f level_trigger }
  { s1 with state.irq_ctlr := s1.state.irq_ctlr.enable irq }

/-- `Machine::initialise` (mod.rs lines 49-74), instrumented with the
trace of its steps.  The returned `Bool` is the function's return value
(`self.initialised`, set unconditionally just before returning); the
source has no conditional on any step's outcome, so the injected
outcomes `o` flow only into the device states. -/
def Machine.initialise (o : StepOutcomes) (s : MachineState) :
    Bool × MachineState × List Event :=
  -- Configure serial port.
  let s1 := s.serial_config o.serial_ok 115200 8 Parity.NoParity 1
  let t1 := [Event.serialConfig 115200 8 Parity.NoParity 1]
  -- Bring up the PIC.
  let s2 := { s1 with state.irq_ctlr := Pic.init o.pic_ok }
  let t2 := t1 ++ [Event.picInit]
  -- Bring up the PIT at 100hz.
  let s3 := { s2 with state.timer := Pit.init o.pit_ok 100 }
  let t3 := t2 ++ [Event.pitInit 100]
  -- Bring up the keyboard.
  let s4 := { s3 with state.keyboard := PS2Keyboard.init o.kb_ok }
  let t4 := t3 ++ [Event.kbInit]
  -- Register the PIT and keyboard IRQs.
  let timer_irq : SharedIrqHandler := ⟨IrqHandlerObj.pitHandler s4.state.timer⟩
  let keyboard_irq : SharedIrqHandler := ⟨IrqHandlerObj.kbHandler s4.state.keyboard⟩
  let s5 := Machine.register_irq s4 Pit.irq_num timer_irq true
  let t5 := t4 ++ [Event.registerIrq Pit.irq_num timer_irq true]
  let s6 := Machine.register_irq s5 PS2Keyboard.irq_num keyboard_irq true
  let t6 := t5 ++ [Event.registerIrq PS2Keyboard.irq_num keyboard_irq true]
  -- Set up the VGA screen.
  let s7 := { s6 with state.screen := s6.state.screen.init o.display_ok }
  let t7 := t6 ++ [Event.vgaInit]
  let s8 := { s7 with initialised := true }
  let t8 := t7 ++ [Event.markInitialised]
  (s8.initialised, s8, t8)

/-- `TimerHandlers::register_timer` (mod.rs lines 83-85): push the
handler onto the vector. -/
def Machine.register_timer (s : MachineState) (f : Nat) : MachineState :=
  { s with state.timer_handlers := s.state.timer_handlers ++ [f] }

/-- `TimerHandlers::timer_fired` (mod.rs lines 87-92): call each
registered handler with `ms`, in vector order.  The second component is
the trace of calls (handler identifier, argument); the handlers receive
no reference to the machine state, and the loop does not change it. -/
def Machine.timer_fired (s : MachineState) (ms : Nat) :
    MachineState × List (Nat × Nat) :=
  (s, s.state.timer_handlers.map (fun h => (h, ms)))

/-- `Keyboard::kb_leds` (mod.rs lines 96-98): forward to the keyboard
device. -/
def Machine.kb_leds (s : MachineState) (state : Nat) : MachineState :=
  { s with state.keyboard := s.state.keyboard.leds state }

/-- Register a whole sequence of timer handlers, in order. -/
def registerAll (s : MachineState) (fs : List Nat) : MachineState :=
  fs.foldl Machine.register_timer s

/-- The I/O port space seen through the `out`/`in` instructions.
Modelled from the spec: `IoPort::outport`/`inport` (mod.rs lines
101-115) are single-instruction hardware accesses; §8's round-trip
property is stated over a simulated port space, embedded as a map from
16-bit port numbers to stored values. -/
structure PortSpace where
  ports : Nat → Nat

/-- A port space with every port reading zero. -/
def PortSpace.zero : PortSpace := ⟨fun _ => 0⟩

/-- `IoPort::outport<T>(port, val)`: write a `w`-bit value to a port.
The port is a `u16`; the stored value is reduced to the width of `T`. -/
def IoPort.outport (w : Nat) (hw : PortSpace) (port val : Nat) : PortSpace :=
  ⟨fun p => if p = port % 65536 then val % 2 ^ w else hw.ports p⟩

/-- `IoPort::inport<T>(port)`: read a `w`-bit value from a port. -/
def IoPort.inport (w : Nat) (hw : PortSpace) (port : Nat) : Nat :=
  hw.ports (port % 65536) % 2 ^ w

/-- The memory seen through raw pointer reads and writes.  Modelled
from the spec: `Mmio::mmio_write`/`mmio_read` (mod.rs lines 117-126)
are `std::ptr::write`/`read` at an arbitrary address; §8's round-trip
property is stated over a simulated memory, embedded as a map from
addresses to stored values. -/
structure MemSpace where
  mem : Nat → Nat

/-- A memory with every address reading zero. -/
def MemSpace.zero : MemSpace := ⟨fun _ => 0⟩

/-- `Mmio::mmio_write<T>(address, val)`: store a `w`-bit value at an
address. -/
def Mmio.mmio_write (w : Nat) (hw : MemSpace) (address val : Nat) : MemSpace :=
  ⟨fun a => if a = address then val % 2 ^ w else hw.mem a⟩

/-- `Mmio::mmio_read<T>(address)`: read a `w`-bit value from an
address. -/
def Mmio.mmio_read (w : Nat) (hw : MemSpace) (address : Nat) : Nat :=
  hw.mem address % 2 ^ w

/-- `ArchitectureState` (arch/mod.rs lines 53-56): the `initialised`
flag plus the architecture-specific state.  The `state` module resolves
the architecture-specific type at build time and is outside the
verified sources; modelled from the spec §3, which identifies its
concrete form on a PC board with the machine state. -/
structure ArchitectureState where
  initialised : Bool
  state : MachineState

/-- `ArchitectureState::new()` (arch/mod.rs lines 58-62). -/
def ArchitectureState.new : ArchitectureState :=
  ⟨false, MachineState.new⟩

/-- `arch::create()` (arch/mod.rs lines 64-66): a freshly boxed
`ArchitectureState::new()`; boxing is identity in the embedding. -/
def Arch.create : ArchitectureState :=
  ArchitectureState.new

/-- The return type of `thread_terminate`, Rust's never type `!`
(arch/mod.rs line 43): a type with no values, so that producing a
value of it — returning control — is impossible. -/
def ThreadTerminateResult : Type := Empty

/-- The `Threads` capability contract (arch/mod.rs lines 40-47), over
an abstract state type: `spawn_thread` takes an entry procedure,
`thread_terminate` has the never return type, `reschedule` triggers a
reschedule. -/
structure Threads (σ : Type) where
  spawn_thread : σ → (Unit → Unit) → σ
  thread_terminate : σ → ThreadTerminateResult
  reschedule : σ → σ

/-- Helper: the timer handler vector after a sequence of
`register_timer` calls is the old vector with the new handlers
appended, in call order. -/
theorem registerAll_timer_handlers (fs : List Nat) (s : MachineState) :
    (registerAll s fs).state.timer_handlers = s.state.timer_handlers ++ fs := by
  induction fs generalizing s with
  | nil => simp [registerAll]
  | cons f fs ih =>
      show (registerAll (Machine.register_timer s f) fs).state.timer_handlers = _
      rw [ih]
      simp [Machine.register_timer]

/-- Claim C1 counterexample: run `initialise` with every bring-up step
made to fail, from a fresh machine.  Contrary to the claim, the return
value is still `true`, and the IRQ lines for the timer and keyboard are
left enabled. -/
theorem initialise_ignores_failures_cex :
    (Machine.initialise StepOutcomes.allFail MachineState.new).1 = true ∧
    StepOutcomes.allOk StepOutcomes.allFail = false ∧
    (Machine.initialise StepOutcomes.allFail
        MachineState.new).2.1.state.irq_ctlr.enabled Pit.irq_num = true ∧
    (Machine.initialise StepOutcomes.allFail
        MachineState.new).2.1.state.irq_ctlr.enabled PS2Keyboard.irq_num = true :=
  ⟨rfl, rfl, rfl, rfl⟩

/-- Claim C1 (amended): `Machine::initialise` returns `true` for every
combination of step outcomes and every starting state — it has no
failure path, ignores the outcome of every bring-up step, marks the
machine initialised, and unconditionally leaves the timer and keyboard
IRQ lines enabled. -/
theorem initialise_always_true (o : StepOutcomes) (s : MachineState) :
    (Machine.initialise o s).1 = true ∧
    (Machine.initialise o s).2.1.initialised = true ∧
    (Machine.initialise o s).2.1.state.irq_ctlr.enabled Pit.irq_num = true ∧
    (Machine.initialise o s).2.1.state.irq_ctlr.enabled PS2Keyboard.irq_num = true :=
  ⟨rfl, rfl, rfl, rfl⟩

/-- Claim C2: after any sequence of `register_timer` calls, one
`timer_fired t` invokes every registered handler exactly once, in
registration order, and passes exactly `t` to each: the call trace is
the handler vector (previous handlers followed by the newly registered
ones, in call order) paired pointwise with `t`. -/
theorem timer_fired_in_order (s : MachineState) (fs : List Nat) (t : Nat) :
    (Machine.timer_fired (registerAll s fs) t).2 =
      (s.state.timer_handlers ++ fs).map (fun f => (f, t)) := by
  show (registerAll s fs).state.timer_handlers.map (fun f => (f, t)) = _
  rw [registerAll_timer_handlers]

/-- Claim C3: registering `h1` and then `h2` for the same line `n`
makes a subsequent dispatch for `n` invoke `h2`; when `h1` and `h2` are
distinct handlers, `h1` is never invoked (last registration wins). -/
theorem irq_last_wins (s : MachineState) (n : Nat) (h1 h2 : SharedIrqHandler)
    (b1 b2 : Bool) :
    Pic.dispatch (Machine.register_irq (Machine.register_irq s n h1 b1) n h2 b2).state.irq_ctlr
        n = some (h2, n) ∧
    (h1 ≠ h2 →
      Pic.dispatch (Machine.register_irq (Machine.register_irq s n h1 b1) n h2 b2).state.irq_ctlr
        n ≠ some (h1, n)) := by
  have hd : Pic.dispatch
      (Machine.register_irq (Machine.register_irq s n h1 b1) n h2 b2).state.irq_ctlr n
      = some (h2, n) := by
    simp [Machine.register_irq, Pic.register, Pic.enable, Pic.dispatch]
  refine ⟨hd, fun hne heq => ?_⟩
  rw [hd] at heq
  exact hne (by injection heq with h; exact ((Prod.mk.injEq _ _ _ _).mp h).1.symm)

/-- Claim C3 witness: two concrete distinct handlers for line 4. -/
theorem irq_last_wins_witness :
    Pic.dispatch (Machine.register_irq
        (Machine.register_irq MachineState.new 4 ⟨IrqHandlerObj.pitHandler Pit.new⟩ true)
        4 ⟨IrqHandlerObj.kbHandler PS2Keyboard.new⟩ false).state.irq_ctlr 4
      = some (⟨IrqHandlerObj.kbHandler PS2Keyboard.new⟩, 4) ∧
    Pic.dispatch (Machine.register_irq
        (Machine.register_irq MachineState.new 4 ⟨IrqHandlerObj.pitHandler Pit.new⟩ true)
        4 ⟨IrqHandlerObj.kbHandler PS2Keyboard.new⟩ false).state.irq_ctlr 4
      ≠ some (⟨IrqHandlerObj.pitHandler Pit.new⟩, 4) :=
  ⟨(irq_last_wins MachineState.new 4 ⟨IrqHandlerObj.pitHandler Pit.new⟩
      ⟨IrqHandlerObj.kbHandler PS2Keyboard.new⟩ true false).1,
   (irq_last_wins MachineState.new 4 ⟨IrqHandlerObj.pitHandler Pit.new⟩
      ⟨IrqHandlerObj.kbHandler PS2Keyboard.new⟩ true false).2 (by decide)⟩

/-- Claim C4: every call to `register_irq` both installs the handler
(with its trigger mode) for the line and enables the line at the
controller; there is no path through this entry point that registers
without enabling. -/
theorem register_irq_registers_and_enables (s : MachineState) (n : Nat)
    (f : SharedIrqHandler) (lt : Bool) :
    (Machine.register_irq s n f lt).state.irq_ctlr.handlers n = some (f, lt) ∧
    (Machine.register_irq s n f lt).state.irq_ctlr.enabled n = true := by
  constructor
  · simp [Machine.register_irq, Pic.register, Pic.enable]
  · simp [Machine.register_irq, Pic.register, Pic.enable]

/-- Claim C5: `initialise` performs its steps in the fixed order
serial configuration (115200 baud, 8 data bits, no parity, 1 stop bit),
interrupt controller bring-up, timer bring-up at 100 Hz, keyboard
bring-up, registration of the timer and keyboard IRQs, display
bring-up, and finally marking the machine initialised. -/
theorem initialise_step_order (o : StepOutcomes) (s : MachineState) :
    (Machine.initialise o s).2.2 =
      [Event.serialConfig 115200 8 Parity.NoParity 1,
       Event.picInit,
       Event.pitInit 100,
       Event.kbInit,
       Event.registerIrq Pit.irq_num ⟨IrqHandlerObj.pitHandler (Pit.init o.pit_ok 100)⟩ true,
       Event.registerIrq PS2Keyboard.irq_num
         ⟨IrqHandlerObj.kbHandler (PS2Keyboard.init o.kb_ok)⟩ true,
       Event.vgaInit,
       Event.markInitialised] ∧
    (Machine.initialise o s).2.1.initialised = true :=
  ⟨rfl, rfl⟩

/-- Claim C6: after `initialise`, the dispatch table holds, at the
timer's own IRQ line, a shared handler reference boxing the machine's
timer device, and at the keyboard's own IRQ line a shared handler
reference boxing the machine's keyboard device, both registered with
the level-trigger flag set. -/
theorem initialise_registers_device_irqs (o : StepOutcomes) (s : MachineState) :
    (Machine.initialise o s).2.1.state.irq_ctlr.handlers Pit.irq_num =
      some (⟨IrqHandlerObj.pitHandler (Machine.initialise o s).2.1.state.timer⟩, true) ∧
    (Machine.initialise o s).2.1.state.irq_ctlr.handlers PS2Keyboard.irq_num =
      some (⟨IrqHandlerObj.kbHandler (Machine.initialise o s).2.1.state.keyboard⟩, true) :=
  ⟨rfl, rfl⟩

/-- Claim C7: writing a value of width `w` and reading it back at the
same location returns the value, both for port I/O and for
memory-mapped I/O over the simulated spaces. -/
theorem io_roundtrip (w : Nat) (hw : PortSpace) (m : MemSpace) (p a v : Nat)
    (hv : v < 2 ^ w) :
    IoPort.inport w (IoPort.outport w hw p v) p = v ∧
    Mmio.mmio_read w (Mmio.mmio_write w m a v) a = v := by
  constructor
  · simp [IoPort.inport, IoPort.outport, Nat.mod_eq_of_lt hv]
  · simp [Mmio.mmio_read, Mmio.mmio_write, Nat.mod_eq_of_lt hv]

/-- Claim C7 witness: an 8-bit value through port 0x3f8 and through
memory address 4096. -/
theorem io_roundtrip_witness :
    IoPort.inport 8 (IoPort.outport 8 PortSpace.zero 1016 200) 1016 = 200 ∧
    Mmio.mmio_read 8 (Mmio.mmio_write 8 MemSpace.zero 4096 200) 4096 = 200 :=
  io_roundtrip 8 PortSpace.zero MemSpace.zero 1016 4096 200 (by decide)

/-- Claim C8: `thread_terminate` has the never return type, which has
no values, so it cannot return control to its caller: a `Threads`
implementation together with a state from which the call returned is
absurd.  Any code path reaching the call is therefore the last code the
calling unit of execution runs. -/
theorem thread_terminate_never_returns :
    IsEmpty ThreadTerminateResult ∧ ∀ (σ : Type) (T : Threads σ) (st : σ), False :=
  ⟨⟨fun r => Empty.elim r⟩, fun _ T st => Empty.elim (T.thread_terminate st)⟩

/-- Claim C9: `timer_fired` returns the machine state unchanged: every
field, including the handler vector, is exactly as before the call. -/
theorem timer_fired_frame (s : MachineState) (ms : Nat) :
    (Machine.timer_fired s ms).1 = s :=
  rfl

/-- Claim C10: a freshly created `ArchitectureState` has `initialised =
false` (both through `new` and through `create`), the fresh machine
state's flag is also `false`, and among the machine operations only
`initialise` sets the flag: `register_irq`, `register_timer`,
`timer_fired` and `kb_leds` all leave it unchanged. -/
theorem fresh_state_not_initialised :
    ArchitectureState.new.initialised = false ∧
    Arch.create.initialised = false ∧
    MachineState.new.initialised = false ∧
    (∀ (o : StepOutcomes) (s : MachineState),
      (Machine.initialise o s).2.1.initialised = true) ∧
    (∀ (s : MachineState) (n : Nat) (f : SharedIrqHandler) (lt : Bool),
      (Machine.register_irq s n f lt).initialised = s.initialised) ∧
    (∀ (s : MachineState) (f : Nat),
      (Machine.register_timer s f).initialised = s.initialised) ∧
    (∀ (s : MachineState) (ms : Nat),
      (Machine.timer_fired s ms).1.initialised = s.initialised) ∧
    (∀ (s : MachineState) (st : Nat),
      (Machine.kb_leds s st).initialised = s.initialised) :=
  ⟨rfl, rfl, rfl, fun _ _ => rfl, fun _ _ _ _ => rfl, fun _ _ => rfl,
   fun _ _ => rfl, fun _ _ => rfl⟩

end Rustic
